import Mathlib

/-!
Verification development for minio's bucket notification handlers
(`cmd/bucket-notification-handlers.go`).

The Go code is shallowly embedded: each handler or helper becomes a pure
Lean function; global mutable state (the event notifier's per-bucket cached
listener sequence, the durable store, the registry of listener channels)
is passed explicitly; the observable side effects that the specification
talks about (acquiring/releasing the per-bucket lock, persisting to the
durable store, broadcasting to peers, reading the cache) are recorded as an
ordered trace of actions emitted by each operation.
-/

/-- Mirrors Go `topicConfig` (defined outside this file's package file; only
its `TopicARN` field is consulted by the handlers embedded here). -/
structure TopicConfig where
  topicARN : String
deriving DecidableEq, Repr

/-- Mirrors Go `listenerConfig`: a topic configuration bound to the node
(`TargetServer`) holding the live connection. -/
structure ListenerConfig where
  topicConfig : TopicConfig
  targetServer : String
deriving DecidableEq, Repr

/-- Mirrors Go `notificationConfig`. The type is declared outside this
source file; its XML fields are never inspected by the embedded handlers,
which treat it as an opaque value, so it is represented by an abstract
list of destination entries. -/
structure NotificationConfigV where
  entries : List String
deriving DecidableEq, Repr

/-- Mirrors Go `NotificationEvent` (declared outside this source file).
The streaming handlers never inspect an event; only its JSON rendering
reaches the wire, so the event is represented by that rendering. -/
structure NotificationEvent where
  json : String
deriving DecidableEq, Repr

/-- The observable side effects of a configuration-mutating operation, in
the order the Go code performs them:
`readCache` = `globalEventNotifier.GetBucketListenerConfig`,
`lock`/`unlock` = `nsMutex.Lock`/`nsMutex.Unlock` on the bucket,
`persist b` = `persistNotificationConfig`/`persistListenerConfig`
returning success (`b = true`) or an error (`b = false`),
`broadcastNotif` = `S3PeersUpdateBucketNotification`,
`broadcastListener` = `S3PeersUpdateBucketListener`. -/
inductive Act where
  | readCache : Act
  | lock : Act
  | persist : Bool → Act
  | broadcastNotif : Act
  | broadcastListener : Act
  | unlock : Act
deriving DecidableEq, Repr

/-- Errors returned by the embedded operations. `errInvalidArgument`
mirrors Go `errInvalidArgument`; `persistError` stands for the (wrapped)
error returned when the durable write fails. -/
inductive GoError where
  | errInvalidArgument : GoError
  | persistError : GoError
  | alreadyExists : GoError
deriving DecidableEq, Repr

/-- Index of the first occurrence of action `a` in a trace. -/
def firstIdx (a : Act) (tr : List Act) : Option Nat :=
  tr.findIdx? (fun x => x = a)

/-- `precedesB a b tr = true` iff both actions occur in `tr` and the first
occurrence of `a` is strictly before the first occurrence of `b`. -/
def precedesB (a b : Act) (tr : List Act) : Bool :=
  match firstIdx a tr, firstIdx b tr with
  | some i, some j => i < j
  | _, _ => false

/-- Per-bucket state touched by the listener-configuration operations:
the event notifier's in-memory cached sequence (updated on every node by
`S3PeersUpdateBucketListener`) and the durable store's sequence (written by
`persistListenerConfig`). -/
structure BucketState where
  cachedListeners : List ListenerConfig
  storedListeners : List ListenerConfig
deriving DecidableEq, Repr

/-- Per-bucket state touched by `PutBucketNotificationConfig`: the durable
notification config and the in-memory copy updated by
`S3PeersUpdateBucketNotification`. -/
structure NotifState where
  storedNotif : Option NotificationConfigV
  memNotif : Option NotificationConfigV
deriving DecidableEq, Repr

/-- Embeds Go `PutBucketNotificationConfig(bucket, ncfg, objAPI)`.
`persistOK` is the outcome of `persistNotificationConfig` (the durable
store's behaviour is an input of the model); `ncfg = none` is the nil
pointer. Returns the result, the action trace and the final state. -/
def PutBucketNotificationConfig (persistOK : Bool)
    (ncfg : Option NotificationConfigV) (st : NotifState) :
    Except GoError Unit × List Act × NotifState :=
  match ncfg with
  | none => (Except.error GoError.errInvalidArgument, [], st)
  | some c =>
    if persistOK then
      (Except.ok (),
       [Act.lock, Act.persist true, Act.broadcastNotif, Act.unlock],
       { storedNotif := some c, memNotif := some c })
    else
      (Except.error GoError.persistError,
       [Act.lock, Act.persist false, Act.unlock],
       st)

/-- Embeds Go `AddBucketListenerConfig(bucket, lcfg, objAPI)`.
`distXL` is `globalIsDistXL`; `persistOK` is the outcome of
`persistListenerConfig` when it is invoked; `lcfg = none` is the nil
pointer. The Go code reads the cached sequence and appends the new entry
before taking the bucket lock; persistence happens only when `distXL`,
and the broadcast (which also updates the local cache) happens only after
a successful (or skipped) persistence. -/
def AddBucketListenerConfig (distXL persistOK : Bool)
    (lcfg : Option ListenerConfig) (st : BucketState) :
    Except GoError Unit × List Act × BucketState :=
  match lcfg with
  | none => (Except.error GoError.errInvalidArgument, [], st)
  | some c =>
    let listenerCfgs := st.cachedListeners ++ [c]
    if distXL then
      if persistOK then
        (Except.ok (),
         [Act.readCache, Act.lock, Act.persist true,
          Act.broadcastListener, Act.unlock],
         { cachedListeners := listenerCfgs, storedListeners := listenerCfgs })
      else
        (Except.error GoError.persistError,
         [Act.readCache, Act.lock, Act.persist false, Act.unlock],
         st)
    else
      (Except.ok (),
       [Act.readCache, Act.lock, Act.broadcastListener, Act.unlock],
       { st with cachedListeners := listenerCfgs })

/-- The loop of Go `RemoveBucketListenerConfig` that computes
`updatedLcfgs`: scan the sequence, and at the first entry whose
`TopicConfig.TopicARN` equals the given ARN, drop that entry
(`append(listenerCfgs[:k], listenerCfgs[k+1:]...)`) and stop (`break`).
Returns `none` when no entry matches (`found == false`). -/
def removeFirstListener (arn : String) :
    List ListenerConfig → Option (List ListenerConfig)
  | [] => none
  | c :: rest =>
    if c.topicConfig.topicARN = arn then
      some rest
    else
      match removeFirstListener arn rest with
      | some rest' => some (c :: rest')
      | none => none

/-- Embeds Go `RemoveBucketListenerConfig(bucket, lcfg, objAPI)` (void in
Go, so only trace and state are returned). When no cached entry matches
the ARN the function returns immediately — before the lock, the persist
and the broadcast. Otherwise it locks, persists the updated sequence when
`distXL` (aborting before the broadcast if that fails) and broadcasts. -/
def RemoveBucketListenerConfig (distXL persistOK : Bool)
    (lcfg : ListenerConfig) (st : BucketState) :
    List Act × BucketState :=
  match removeFirstListener lcfg.topicConfig.topicARN st.cachedListeners with
  | none => ([Act.readCache], st)
  | some updated =>
    if distXL then
      if persistOK then
        ([Act.readCache, Act.lock, Act.persist true,
          Act.broadcastListener, Act.unlock],
         { cachedListeners := updated, storedListeners := updated })
      else
        ([Act.readCache, Act.lock, Act.persist false, Act.unlock],
         st)
    else
      ([Act.readCache, Act.lock, Act.broadcastListener, Act.unlock],
       { st with cachedListeners := updated })

/-- Go `crlf = []byte("\r\n")`: the CRLF terminator appended to every
frame written by `writeNotification`. -/
def crlf : String := "\r\n"

/-- JSON rendering of a Go `[]NotificationEvent` value as `json.Marshal`
produces it: a nil slice renders as `null`, a non-nil slice as a JSON
array of the events' renderings. -/
def jsonOfEvents : Option (List NotificationEvent) → String
  | none => "null"
  | some evs => "[" ++ String.intercalate "," (evs.map (fun e => e.json)) ++ "]"

/-- JSON rendering of a Go `map[string][]NotificationEvent` as
`json.Marshal` produces it (the map is represented as an association
list): a JSON object with one `"key":value` member per entry. -/
def jsonMarshalMap (m : List (String × Option (List NotificationEvent))) : String :=
  "\x7b" ++
    String.intercalate ","
      (m.map (fun kv => "\"" ++ kv.1 ++ "\":" ++ jsonOfEvents kv.2)) ++
    "\x7d"

/-- Embeds Go `writeNotification(w, notification)`: a nil notification map
returns `errInvalidArgument` (the nil response writer check is a property
of the HTTP layer, outside this model); otherwise the marshalled JSON with
the trailing CRLF is written to the client and returned here as the emitted
byte string. -/
def writeNotification
    (notification : Option (List (String × Option (List NotificationEvent)))) :
    Except GoError String :=
  match notification with
  | none => Except.error GoError.errInvalidArgument
  | some m => Except.ok (jsonMarshalMap m ++ crlf)

/-- Go `dummyEvents = map[string][]NotificationEvent{"Records": nil}`: the
heartbeat payload written when the keep-alive timer fires. -/
def dummyEvents : List (String × Option (List NotificationEvent)) :=
  [("Records", none)]

/-- One iteration of the `select` in Go `sendBucketNotification`: either a
batch of events was received on `arnListenerCh`, or `globalSNSConnAlive`
elapsed with no batch (`time.After` fired). -/
inductive LoopInput where
  | events : List NotificationEvent → LoopInput
  | timeout : LoopInput
deriving DecidableEq, Repr

/-- Embeds the loop of Go `sendBucketNotification(w, arnListenerCh)`: the
session's successive `select` outcomes are serialized as a list of
`LoopInput`; each iteration writes one frame (`{"Records": events}` for a
received batch, `dummyEvents` on keep-alive timeout) and the loop returns
on a write error; the client's disconnect is the end of the input list.
Returns the frames emitted to the client, in order. -/
def sendBucketNotification : List LoopInput → List String
  | [] => []
  | LoopInput.events evs :: rest =>
    match writeNotification (some [("Records", some evs)]) with
    | Except.ok frame => frame :: sendBucketNotification rest
    | Except.error _ => []
  | LoopInput.timeout :: rest =>
    match writeNotification (some dummyEvents) with
    | Except.ok frame => frame :: sendBucketNotification rest
    | Except.error _ => []

/-- Outcome of Go `loadNotificationConfig(bucket, objAPI)` as consulted by
`GetBucketNotificationHandler`: a config, the distinguished
`errNoSuchNotifications`, or any other error. -/
inductive LoadNotifResult where
  | ok : NotificationConfigV → LoadNotifResult
  | errNoSuchNotifications : LoadNotifResult
  | otherError : LoadNotifResult
deriving DecidableEq, Repr

/-- XML rendering of a `notificationConfig` as `xml.Marshal` produces it
(the config's fields being abstract, so is their rendering; the empty
config renders the empty element). -/
def xmlMarshal (c : NotificationConfigV) : String :=
  "<NotificationConfiguration>" ++ String.intercalate "" c.entries ++
    "</NotificationConfiguration>"

/-- An HTTP response as observed by the client of the GET handler:
`writeErrorResponse` or `writeSuccessResponse` with a body. -/
inductive HTTPResponse where
  | errorResp : HTTPResponse
  | success : String → HTTPResponse
deriving DecidableEq, Repr

/-- Embeds Go `GetBucketNotificationHandler`: after the object-layer and
auth checks, load the notification config; any error other than
`errNoSuchNotifications` is written as an error response; for
`errNoSuchNotifications` a fresh empty `notificationConfig{}` is used; the
(possibly empty) config is marshalled to XML and written as a success. -/
def GetBucketNotificationHandler (objAPIOk authOk : Bool)
    (load : LoadNotifResult) : HTTPResponse :=
  if !objAPIOk then HTTPResponse.errorResp
  else if !authOk then HTTPResponse.errorResp
  else
    match load with
    | LoadNotifResult.otherError => HTTPResponse.errorResp
    | LoadNotifResult.errNoSuchNotifications =>
      HTTPResponse.success (xmlMarshal { entries := [] })
    | LoadNotifResult.ok cfg => HTTPResponse.success (xmlMarshal cfg)

/-- Modelled from the spec: the event notifier registry's
`addListener(destinationID, channel) -> ok | AlreadyExists`
(`globalEventNotifier.AddListenerChan`, defined outside this source file)
"registers a delivery channel on the local node; fails if the identifier
already has a channel". The registry is the list of identifiers holding a
channel on this node. -/
def AddListenerChan (arn : String) (registry : List String) :
    Except GoError (List String) :=
  if arn ∈ registry then Except.error GoError.alreadyExists
  else Except.ok (registry ++ [arn])

/-- Modelled from the spec: the registry's `removeListener(destinationID)`
(`globalEventNotifier.RemoveListenerChan`, defined outside this source
file), "idempotent; no-op if absent". -/
def RemoveListenerChan (arn : String) (registry : List String) :
    List String :=
  registry.filter (fun c => c != arn)

/-- The request-validation outcomes of `ListenBucketNotificationHandler`
before any state is touched: object layer present, auth, prefix filter
values, suffix filter values, event names, bucket existence. -/
structure ListenParams where
  objAPIOk : Bool
  authOk : Bool
  prefixesOk : Bool
  suffixesOk : Bool
  eventsOk : Bool
  bucketExists : Bool
deriving DecidableEq, Repr

/-- What the client of the listen handler observes: an error response, or
a stream of frames. -/
inductive ListenResult where
  | errorResp : ListenResult
  | streamed : List String → ListenResult
deriving DecidableEq, Repr

/-- Embeds Go `ListenBucketNotificationHandler`: validations in source
order; then `AddListenerChan` registers the delivery channel (with
`RemoveListenerChan` deferred right after); then `AddBucketListenerConfig`
persists and broadcasts the new listener entry — on its failure the
handler writes an error response and the deferred `RemoveListenerChan`
runs as the handler returns; on success `RemoveBucketListenerConfig` is
deferred and `sendBucketNotification` streams until disconnect, after
which the deferred removals run in LIFO order. `accountARN` stands for
the timestamp-derived ARN; `targetServer` for `globalMinioAddr`. Returns
the client-observed result, the final channel registry and the final
bucket state. -/
def ListenBucketNotificationHandler (p : ListenParams)
    (distXL persistOK : Bool) (accountARN targetServer : String)
    (inputs : List LoopInput) (registry : List String) (st : BucketState) :
    ListenResult × List String × BucketState :=
  if !p.objAPIOk then (ListenResult.errorResp, registry, st)
  else if !p.authOk then (ListenResult.errorResp, registry, st)
  else if !p.prefixesOk then (ListenResult.errorResp, registry, st)
  else if !p.suffixesOk then (ListenResult.errorResp, registry, st)
  else if !p.eventsOk then (ListenResult.errorResp, registry, st)
  else if !p.bucketExists then (ListenResult.errorResp, registry, st)
  else
    match AddListenerChan accountARN registry with
    | Except.error _ => (ListenResult.errorResp, registry, st)
    | Except.ok registry' =>
      let lc : ListenerConfig := ⟨⟨accountARN⟩, targetServer⟩
      match AddBucketListenerConfig distXL persistOK (some lc) st with
      | (Except.error _, _, st') =>
        (ListenResult.errorResp, RemoveListenerChan accountARN registry', st')
      | (Except.ok _, _, st') =>
        let st'' := (RemoveBucketListenerConfig distXL persistOK lc st').2
        (ListenResult.streamed (sendBucketNotification inputs),
         RemoveListenerChan accountARN registry', st'')

/-- A listener config used as concrete input in witnesses. -/
def lcEx : ListenerConfig := ⟨⟨"arn:minio:sns:r:1:minio-srv"⟩, "srv"⟩

/-- A bucket state holding one cached listener, used in witnesses. -/
def stEx : BucketState := ⟨[lcEx], []⟩

/-- A notification config used as concrete input in witnesses. -/
def ncfgEx : NotificationConfigV := ⟨["dest1"]⟩

/-- An empty notification state used as concrete input in witnesses. -/
def nstEx : NotifState := ⟨none, none⟩

/-- The listen request whose validations all pass: object layer present,
auth OK, valid prefixes, suffixes and events, existing bucket. -/
def allOkParams : ListenParams := ⟨true, true, true, true, true, true⟩

theorem removeFirstListener_eq_none (arn : String)
    (l : List ListenerConfig)
    (h : ∀ c ∈ l, c.topicConfig.topicARN ≠ arn) :
    removeFirstListener arn l = none := by
  induction l with
  | nil => rfl
  | cons c rest ih =>
    simp only [removeFirstListener]
    rw [if_neg (h c (List.mem_cons_self c rest))]
    rw [ih (fun x hx => h x (List.mem_cons_of_mem c hx))]

theorem removeFirstListener_append (arn : String)
    (l₁ l₂ : List ListenerConfig) (c : ListenerConfig)
    (h₁ : ∀ x ∈ l₁, x.topicConfig.topicARN ≠ arn)
    (h₂ : c.topicConfig.topicARN = arn) :
    removeFirstListener arn (l₁ ++ c :: l₂) = some (l₁ ++ l₂) := by
  induction l₁ with
  | nil => simp [removeFirstListener, h₂]
  | cons d rest ih =>
    simp only [List.cons_append, removeFirstListener]
    rw [if_neg (h₁ d (List.mem_cons_self d rest))]
    simp only [List.append_eq]
    rw [ih (fun x hx => h₁ x (List.mem_cons_of_mem d hx))]

/-- C10: `PutBucketNotificationConfig` called with a nil configuration
pointer returns `errInvalidArgument` immediately: its trace is empty — no
lock acquisition, no durable write, no peer broadcast — and the state is
unchanged. -/
theorem put_nil_config_rejected (persistOK : Bool) (st : NotifState) :
    PutBucketNotificationConfig persistOK none st
      = (Except.error GoError.errInvalidArgument, [], st) := rfl

/-- The trace of a non-nil `PutBucketNotificationConfig` call, by case on
the persistence outcome. -/
theorem put_trace (pOK : Bool) (c : NotificationConfigV) (nst : NotifState) :
    (PutBucketNotificationConfig pOK (some c) nst).2.1
      = if pOK then
          [Act.lock, Act.persist true, Act.broadcastNotif, Act.unlock]
        else [Act.lock, Act.persist false, Act.unlock] := by
  cases pOK <;> rfl

/-- The trace of a non-nil `AddBucketListenerConfig` call, by case on the
deployment mode and the persistence outcome. -/
theorem add_trace (distXL pOK : Bool) (l : ListenerConfig)
    (bst : BucketState) :
    (AddBucketListenerConfig distXL pOK (some l) bst).2.1
      = if distXL then
          (if pOK then
            [Act.readCache, Act.lock, Act.persist true,
             Act.broadcastListener, Act.unlock]
           else [Act.readCache, Act.lock, Act.persist false, Act.unlock])
        else [Act.readCache, Act.lock, Act.broadcastListener, Act.unlock] := by
  cases distXL <;> cases pOK <;> rfl

/-- C2: when persistence fails inside `PutBucketNotificationConfig` or
`AddBucketListenerConfig`, the operation returns an error and the peer
broadcast is absent from its trace; moreover whenever a broadcast occurs,
no failed persist occurs, and if persistence was attempted (distributed
mode for the listener path, always for the notification path) the
successful persist strictly precedes the broadcast. -/
theorem broadcast_only_after_persist (c : NotificationConfigV)
    (l : ListenerConfig) (nst : NotifState) (bst : BucketState) :
    ((PutBucketNotificationConfig false (some c) nst).1
        = Except.error GoError.persistError
      ∧ Act.broadcastNotif ∉ (PutBucketNotificationConfig false (some c) nst).2.1)
    ∧ ((AddBucketListenerConfig true false (some l) bst).1
        = Except.error GoError.persistError
      ∧ Act.broadcastListener ∉ (AddBucketListenerConfig true false (some l) bst).2.1)
    ∧ (∀ persistOK : Bool,
        Act.broadcastNotif ∈ (PutBucketNotificationConfig persistOK (some c) nst).2.1 →
          precedesB (Act.persist true) Act.broadcastNotif
            (PutBucketNotificationConfig persistOK (some c) nst).2.1 = true)
    ∧ (∀ distXL persistOK : Bool,
        Act.broadcastListener
            ∈ (AddBucketListenerConfig distXL persistOK (some l) bst).2.1 →
          Act.persist false
              ∉ (AddBucketListenerConfig distXL persistOK (some l) bst).2.1
          ∧ (distXL = true →
              precedesB (Act.persist true) Act.broadcastListener
                (AddBucketListenerConfig distXL persistOK (some l) bst).2.1
                  = true)) := by
  refine ⟨⟨rfl, ?_⟩, ⟨rfl, ?_⟩, ?_, ?_⟩
  · rw [put_trace]; decide
  · rw [add_trace]; decide
  · intro persistOK
    rw [put_trace]
    cases persistOK <;> decide
  · intro distXL persistOK
    rw [add_trace]
    cases distXL <;> cases persistOK <;> decide

/-- C2 witness: at concrete inputs the broadcast of the notification path
occurs and is preceded by a successful persist. -/
theorem broadcast_only_after_persist_witness :
    precedesB (Act.persist true) Act.broadcastNotif
      (PutBucketNotificationConfig true (some ncfgEx) nstEx).2.1 = true :=
  (broadcast_only_after_persist ncfgEx lcEx nstEx stEx).2.2.1 true (by decide)

/-- C3: when the bucket has no stored notification configuration
(`loadNotificationConfig` yields `errNoSuchNotifications`), the GET
handler does not surface an error: it writes a success response carrying
the XML of an empty notification configuration. -/
theorem get_no_config_returns_empty :
    GetBucketNotificationHandler true true LoadNotifResult.errNoSuchNotifications
      = HTTPResponse.success (xmlMarshal { entries := [] }) := rfl

/-- The trace of `RemoveBucketListenerConfig` when a matching entry is
found, by case on the deployment mode and the persistence outcome. -/
theorem remove_trace_found (distXL pOK : Bool) (lcfg : ListenerConfig)
    (st : BucketState) (updated : List ListenerConfig)
    (h : removeFirstListener lcfg.topicConfig.topicARN st.cachedListeners
          = some updated) :
    (RemoveBucketListenerConfig distXL pOK lcfg st).1
      = if distXL then
          (if pOK then
            [Act.readCache, Act.lock, Act.persist true,
             Act.broadcastListener, Act.unlock]
           else [Act.readCache, Act.lock, Act.persist false, Act.unlock])
        else [Act.readCache, Act.lock, Act.broadcastListener, Act.unlock] := by
  simp only [RemoveBucketListenerConfig, h]
  cases distXL <;> cases pOK <;> rfl

/-- C1 counterexample: at a concrete input, in both
`AddBucketListenerConfig` and `RemoveBucketListenerConfig` the read of the
cached listener sequence strictly precedes the acquisition of the bucket
lock — so the lock is not acquired before the operation reads the current
sequence and computes the modified one, refuting the claimed ordering. -/
theorem listener_lock_before_read_counterexample :
    (precedesB Act.readCache Act.lock
        (AddBucketListenerConfig true true (some lcEx) stEx).2.1 = true
      ∧ precedesB Act.lock Act.readCache
        (AddBucketListenerConfig true true (some lcEx) stEx).2.1 = false)
    ∧ (precedesB Act.readCache Act.lock
        (RemoveBucketListenerConfig true true lcEx stEx).1 = true
      ∧ precedesB Act.lock Act.readCache
        (RemoveBucketListenerConfig true true lcEx stEx).1 = false) := by
  decide

/-- C1 (amended): in both listener-configuration mutations the bucket lock
is acquired only after the cached sequence is read and the modified
sequence computed; from there the lock is held through persistence (when
attempted) and the peer broadcast: the lock precedes every persist and
every broadcast in the trace, and both precede the unlock — the lock is
released only after the broadcast completes. For the remove path this is
under the hypothesis that a matching entry was found (otherwise the
operation exits before locking, see C5). -/
theorem listener_lock_held_through_broadcast (distXL pOK : Bool)
    (lc lcfg : ListenerConfig) (st : BucketState)
    (updated : List ListenerConfig)
    (h : removeFirstListener lcfg.topicConfig.topicARN st.cachedListeners
          = some updated) :
    (precedesB Act.readCache Act.lock
        (AddBucketListenerConfig distXL pOK (some lc) st).2.1 = true
      ∧ (Act.broadcastListener
            ∈ (AddBucketListenerConfig distXL pOK (some lc) st).2.1 →
          precedesB Act.lock Act.broadcastListener
            (AddBucketListenerConfig distXL pOK (some lc) st).2.1 = true
          ∧ precedesB Act.broadcastListener Act.unlock
            (AddBucketListenerConfig distXL pOK (some lc) st).2.1 = true)
      ∧ (∀ b, Act.persist b ∈ (AddBucketListenerConfig distXL pOK (some lc) st).2.1 →
          precedesB Act.lock (Act.persist b)
            (AddBucketListenerConfig distXL pOK (some lc) st).2.1 = true
          ∧ precedesB (Act.persist b) Act.unlock
            (AddBucketListenerConfig distXL pOK (some lc) st).2.1 = true))
    ∧ (precedesB Act.readCache Act.lock
        (RemoveBucketListenerConfig distXL pOK lcfg st).1 = true
      ∧ (Act.broadcastListener ∈ (RemoveBucketListenerConfig distXL pOK lcfg st).1 →
          precedesB Act.lock Act.broadcastListener
            (RemoveBucketListenerConfig distXL pOK lcfg st).1 = true
          ∧ precedesB Act.broadcastListener Act.unlock
            (RemoveBucketListenerConfig distXL pOK lcfg st).1 = true)
      ∧ (∀ b, Act.persist b ∈ (RemoveBucketListenerConfig distXL pOK lcfg st).1 →
          precedesB Act.lock (Act.persist b)
            (RemoveBucketListenerConfig distXL pOK lcfg st).1 = true
          ∧ precedesB (Act.persist b) Act.unlock
            (RemoveBucketListenerConfig distXL pOK lcfg st).1 = true)) := by
  constructor
  · rw [add_trace]
    cases distXL <;> cases pOK <;> decide
  · rw [remove_trace_found distXL pOK lcfg st updated h]
    cases distXL <;> cases pOK <;> decide

/-- C1 (amended) witness: at a concrete input the read precedes the lock
in the add path. -/
theorem listener_lock_held_through_broadcast_witness :
    precedesB Act.readCache Act.lock
      (AddBucketListenerConfig true true (some lcEx) stEx).2.1 = true :=
  (listener_lock_held_through_broadcast true true lcEx lcEx stEx []
    (by decide)).1.1

/-- C5: removing a listener whose ARN is absent from the bucket's cached
sequence is a no-op: `RemoveBucketListenerConfig` returns right after the
read — no error (the function has no error result), no lock acquisition,
no persist, no broadcast — and the state is unchanged; hence removing the
same listener a second time after it was already removed is a no-op. -/
theorem remove_absent_listener_noop (distXL pOK : Bool)
    (lcfg : ListenerConfig) (st : BucketState)
    (h : ∀ c ∈ st.cachedListeners,
        c.topicConfig.topicARN ≠ lcfg.topicConfig.topicARN) :
    RemoveBucketListenerConfig distXL pOK lcfg st = ([Act.readCache], st) := by
  simp only [RemoveBucketListenerConfig,
    removeFirstListener_eq_none lcfg.topicConfig.topicARN st.cachedListeners h]

/-- C5 witness: removing an ARN not present in the single-entry cache is
the identity on the state, emitting only the read. -/
theorem remove_absent_listener_noop_witness :
    RemoveBucketListenerConfig true true ⟨⟨"arn:minio:sns:r:2:minio-srv"⟩, "srv"⟩ stEx
      = ([Act.readCache], stEx) :=
  remove_absent_listener_noop true true ⟨⟨"arn:minio:sns:r:2:minio-srv"⟩, "srv"⟩ stEx
    (by decide)

/-- C6: when several cached entries carry the ARN being removed,
`RemoveBucketListenerConfig` drops exactly the first matching entry: with
`l₁` the prefix of non-matching entries and `c` the first match, the
updated cached sequence is `l₁ ++ l₂` — every later entry, the other
matches in `l₂` included, remains. -/
theorem remove_first_match_only (distXL : Bool) (lcfg c : ListenerConfig)
    (l₁ l₂ stored : List ListenerConfig)
    (h₁ : ∀ x ∈ l₁, x.topicConfig.topicARN ≠ lcfg.topicConfig.topicARN)
    (h₂ : c.topicConfig.topicARN = lcfg.topicConfig.topicARN) :
    (RemoveBucketListenerConfig distXL true lcfg
        ⟨l₁ ++ c :: l₂, stored⟩).2.cachedListeners = l₁ ++ l₂ := by
  simp only [RemoveBucketListenerConfig,
    removeFirstListener_append _ _ _ _ h₁ h₂]
  cases distXL <;> rfl

/-- C6 witness: removing ARN `a` from a cache holding a non-match and two
matches drops only the first match; the second match survives. -/
theorem remove_first_match_only_witness :
    (RemoveBucketListenerConfig true true ⟨⟨"a"⟩, "s"⟩
        ⟨[⟨⟨"x"⟩, "s"⟩, ⟨⟨"a"⟩, "s1"⟩, ⟨⟨"a"⟩, "s2"⟩], []⟩).2.cachedListeners
      = [⟨⟨"x"⟩, "s"⟩, ⟨⟨"a"⟩, "s2"⟩] :=
  remove_first_match_only true ⟨⟨"a"⟩, "s"⟩ ⟨⟨"a"⟩, "s1"⟩ [⟨⟨"x"⟩, "s"⟩]
    [⟨⟨"a"⟩, "s2"⟩] [] (by decide) (by decide)

/-- C7: in a single-node deployment (`globalIsDistXL = false`) neither
adding nor removing a listener writes the durable store: no persist action
appears in either trace, the stored sequence is unchanged, and only the
in-memory broadcast update runs — the add always broadcasts, and the
remove broadcasts exactly when a matching cached entry exists. -/
theorem single_node_skips_persist (pOK : Bool) (lc lcfg : ListenerConfig)
    (st st' : BucketState) :
    ((AddBucketListenerConfig false pOK (some lc) st).2.2.storedListeners
        = st.storedListeners
      ∧ (∀ b, Act.persist b ∉ (AddBucketListenerConfig false pOK (some lc) st).2.1)
      ∧ Act.broadcastListener ∈ (AddBucketListenerConfig false pOK (some lc) st).2.1)
    ∧ ((RemoveBucketListenerConfig false pOK lcfg st').2.storedListeners
        = st'.storedListeners
      ∧ (∀ b, Act.persist b ∉ (RemoveBucketListenerConfig false pOK lcfg st').1)
      ∧ (removeFirstListener lcfg.topicConfig.topicARN st'.cachedListeners ≠ none →
          Act.broadcastListener ∈ (RemoveBucketListenerConfig false pOK lcfg st').1)) := by
  refine ⟨⟨rfl, ?_, ?_⟩, ?_⟩
  · rw [add_trace]; cases pOK <;> decide
  · rw [add_trace]; cases pOK <;> decide
  · rcases hrf : removeFirstListener lcfg.topicConfig.topicARN st'.cachedListeners
      with _ | updated
    · refine ⟨?_, ?_, ?_⟩
      · simp only [RemoveBucketListenerConfig, hrf]
      · simp only [RemoveBucketListenerConfig, hrf]
        decide
      · intro hc
        exact absurd rfl hc
    · refine ⟨?_, ?_, ?_⟩
      · simp only [RemoveBucketListenerConfig, hrf]
        cases pOK <;> rfl
      · simp only [RemoveBucketListenerConfig, hrf]
        show ∀ b, Act.persist b
          ∉ [Act.readCache, Act.lock, Act.broadcastListener, Act.unlock]
        decide
      · intro hc
        simp only [RemoveBucketListenerConfig, hrf]
        show Act.broadcastListener
          ∈ [Act.readCache, Act.lock, Act.broadcastListener, Act.unlock]
        decide

/-- C7 witness: at a concrete single-node input the remove of a cached
listener broadcasts (after leaving the durable store untouched). -/
theorem single_node_skips_persist_witness :
    Act.broadcastListener ∈ (RemoveBucketListenerConfig false true lcEx stEx).1 :=
  (single_node_skips_persist true lcEx lcEx stEx stEx).2.2.2 (by decide)

theorem removeListenerChan_append_self (arn : String) (reg : List String)
    (h : arn ∉ reg) :
    RemoveListenerChan arn (reg ++ [arn]) = reg := by
  simp only [RemoveListenerChan, List.filter_append]
  have h1 : List.filter (fun c => c != arn) [arn] = [] := by simp
  have h2 : List.filter (fun c => c != arn) reg = reg := by
    apply List.filter_eq_self.mpr
    intro a ha
    simp only [bne_iff_ne, ne_eq, decide_eq_true_eq]
    exact fun e => h (e ▸ ha)
  rw [h1, h2, List.append_nil]

/-- C4: when every validation passes, the delivery channel has been
registered, and `AddBucketListenerConfig` then fails (distributed mode
with a failing durable write), the listen handler answers with an error
response and, through the deferred `RemoveListenerChan`, the registered
channel is removed again before the handler exits: the registry is
restored exactly and the bucket state is untouched — no dangling channel,
no partial listener entry. -/
theorem listen_registration_failure_cleanup (arn srv : String)
    (inputs : List LoopInput) (registry : List String) (st : BucketState)
    (h : arn ∉ registry) :
    ListenBucketNotificationHandler allOkParams true false arn srv inputs
        registry st
      = (ListenResult.errorResp, registry, st) := by
  simp [ListenBucketNotificationHandler, allOkParams, AddListenerChan,
    AddBucketListenerConfig, h, removeListenerChan_append_self arn registry h]

/-- C4 witness: the cleanup equation at a concrete failing registration. -/
theorem listen_registration_failure_cleanup_witness :
    ListenBucketNotificationHandler allOkParams true false
        "arn:minio:sns:r:1:minio-srv" "srv" [] [] ⟨[], []⟩
      = (ListenResult.errorResp, [], ⟨[], []⟩) :=
  listen_registration_failure_cleanup "arn:minio:sns:r:1:minio-srv" "srv"
    [] [] ⟨[], []⟩ (by decide)

/-- C8: every frame emitted to the streaming client is the JSON
serialization of an object with the single key `"Records"` followed by
the two CRLF bytes; the value is the received batch's event list for a
delivered batch and `null` (a Go nil slice) for a heartbeat. -/
theorem frames_single_records_crlf (inputs : List LoopInput) (f : String)
    (hf : f ∈ sendBucketNotification inputs) :
    ∃ v : Option (List NotificationEvent),
      f = ("\x7b" ++ ("\"Records\":" ++ jsonOfEvents v)) ++ "\x7d" ++ crlf := by
  induction inputs with
  | nil => simp [sendBucketNotification] at hf
  | cons i rest ih =>
    cases i with
    | events evs =>
      simp only [sendBucketNotification, writeNotification] at hf
      rcases List.mem_cons.mp hf with hf | hf
      · exact ⟨some evs, hf.trans rfl⟩
      · exact ih hf
    | timeout =>
      simp only [sendBucketNotification, writeNotification] at hf
      rcases List.mem_cons.mp hf with hf | hf
      · exact ⟨none, hf.trans rfl⟩
      · exact ih hf

/-- C8 witness: the heartbeat frame emitted for a lone keep-alive timeout
has the single-`"Records"`-key CRLF-terminated shape. -/
theorem frames_single_records_crlf_witness :
    ∃ v : Option (List NotificationEvent),
      "\x7b\"Records\":null\x7d\r\n"
        = ("\x7b" ++ ("\"Records\":" ++ jsonOfEvents v)) ++ "\x7d" ++ crlf :=
  frames_single_records_crlf [LoopInput.timeout] "\x7b\"Records\":null\x7d\r\n"
    (by decide)

/-- C9: when no batch arrives on the delivery channel within the
keep-alive interval — the session's next `select` outcome is the
`time.After` timeout — the next frame written to the client is the
empty-records heartbeat (the value is a nil `Records` list, serialized
`null`); in particular a listener whose first outcome is such a timeout
receives the empty-records frame before any real event. -/
theorem heartbeat_first_on_keepalive (rest : List LoopInput) :
    sendBucketNotification (LoopInput.timeout :: rest)
      = "\x7b\"Records\":null\x7d\r\n" :: sendBucketNotification rest
    ∧ (sendBucketNotification (LoopInput.timeout :: rest)).head?
      = some "\x7b\"Records\":null\x7d\r\n" :=
  ⟨rfl, rfl⟩
